import Mathlib

/-!
Shallow embedding of the traffic-signal coordination program
(`controlador_fl/coordinacion.py` and `controlador_fl/main.py`).

Conventions:
* Python floats are modelled as exact numbers: `ℚ` for the purely
  arithmetic parts (fuzzy engine, Webster cycle, bandwidth, input
  derivation) and `ℝ` for the trigonometric geometry (haversine).
* Fallible computations return `Option`: `none` models an exception
  propagating out of the Python code.
-/

set_option maxHeartbeats 1000000

/-- Python `int()` truncation toward zero, on an exact rational. -/
def pyInt (q : ℚ) : ℤ := if 0 ≤ q then ⌊q⌋ else -⌊-q⌋

/-- Triangular membership function with control points `a ≤ b ≤ c`,
exactly as `skfuzzy.trimf` evaluates it on its universe: 1 at the apex
`b`, linear interpolation strictly between the control points, 0
outside the support (the spec describes the same shape in section 4.7). -/
def trimf (a b c x : ℚ) : ℚ :=
  if x = b then 1
  else if a < x ∧ x < b then (x - a) / (b - a)
  else if b < x ∧ x < c then (c - x) / (c - b)
  else 0

/-- Membership set `vehiculos['bajo']`, `main.py` line 26. -/
def vehiculos_bajo (v : ℚ) : ℚ := trimf 0 0 15 v

/-- Membership set `vehiculos['medio']`, `main.py` line 27. -/
def vehiculos_medio (v : ℚ) : ℚ := trimf 10 25 40 v

/-- Membership set `vehiculos['alto']`, `main.py` line 28. -/
def vehiculos_alto (v : ℚ) : ℚ := trimf 35 50 50 v

/-- Membership set `detencion['corto']`, `main.py` line 30. -/
def detencion_corto (s : ℚ) : ℚ := trimf 0 0 20 s

/-- Membership set `detencion['medio']`, `main.py` line 31. -/
def detencion_medio (s : ℚ) : ℚ := trimf 15 30 45 s

/-- Membership set `detencion['largo']`, `main.py` line 32. -/
def detencion_largo (s : ℚ) : ℚ := trimf 40 60 60 s

/-- Membership set `tiempo_verde['corto']`, `main.py` line 34. -/
def tiempo_corto (z : ℚ) : ℚ := trimf 10 10 30 z

/-- Membership set `tiempo_verde['medio']`, `main.py` line 35. -/
def tiempo_medio (z : ℚ) : ℚ := trimf 25 45 65 z

/-- Membership set `tiempo_verde['largo']`, `main.py` line 36. -/
def tiempo_largo (z : ℚ) : ℚ := trimf 60 90 90 z

/-- Firing strength of `rule1 = Rule(vehiculos['bajo'] & detencion['corto'], ...)`,
`main.py` line 38; AND is min. -/
def rule1_strength (v s : ℚ) : ℚ := min (vehiculos_bajo v) (detencion_corto s)

/-- Firing strength of `rule2 = Rule(vehiculos['medio'] | detencion['medio'], ...)`,
`main.py` line 39; OR is max. -/
def rule2_strength (v s : ℚ) : ℚ := max (vehiculos_medio v) (detencion_medio s)

/-- Firing strength of `rule3 = Rule(vehiculos['alto'] | detencion['largo'], ...)`,
`main.py` line 40; OR is max. -/
def rule3_strength (v s : ℚ) : ℚ := max (vehiculos_alto v) (detencion_largo s)

/-- Output universe `np.arange(10, 91, 1)` of `tiempo_verde`, `main.py` line 24. -/
def tiempoUniverse : List ℚ := (List.range 81).map (fun k : ℕ => (10 : ℚ) + (k : ℚ))

/-- Mamdani aggregation at an output sample `z`: each rule's consequent
set is clipped at the rule's firing strength (min), and the three
clipped sets are combined point-wise by max (spec section 4.7, steps 2-3;
this is what the skfuzzy control system built in `main.py` lines 38-43
computes). -/
def aggregated (v s z : ℚ) : ℚ :=
  max (min (rule1_strength v s) (tiempo_corto z))
    (max (min (rule2_strength v s) (tiempo_medio z))
      (min (rule3_strength v s) (tiempo_largo z)))

/-- Modelled from the spec: the inference internals of
`ControlSystemSimulation.compute` live in the third-party skfuzzy
library, not under `src/`.  Following spec section 4.7 steps 1-4, the
crisp output is the centroid of the aggregated output membership curve
sampled at integer resolution across the output domain; when the
aggregate has zero total membership (no rule fired) the centroid is
undefined and the library raises instead of returning a value, which is
modelled as `none`. -/
def fuzzyCompute (v s : ℚ) : Option ℚ :=
  let total := (tiempoUniverse.map (aggregated v s)).sum
  if total = 0 then none
  else some ((tiempoUniverse.map (fun z => z * aggregated v s z)).sum / total)

/-- Embedding of `FuzzyTraffic.calcular_tiempo`, `main.py` lines 45-49:
run the fuzzy controller, truncate the crisp output with `int()`, and
clamp it with `max(10, min(90, ...))`.  A `none` result models the
skfuzzy exception propagating (there is no handler in the source). -/
def calcular_tiempo (v s : ℚ) : Option ℤ :=
  (fuzzyCompute v s).map (fun t => max 10 (min 90 (pyInt t)))

/-- Saturation value `y` before the redundant guard, from
`estimar_ciclo_webster`, `coordinacion.py` lines 156-160: a non-empty
list is summed and clamped to `[0.2, 0.9]`, an empty list (falsy in
Python) yields the fallback `0.6`. -/
def websterYRaw (flujos : List ℚ) : ℚ :=
  match flujos with
  | [] => 0.6
  | x :: r => min (max (x :: r).sum 0.2) 0.9

/-- Saturation value `y` after the redundant `if y >= 1.0: y = 0.9`
guard, `coordinacion.py` lines 162-163. -/
def websterY (flujos : List ℚ) : ℚ :=
  let y := websterYRaw flujos
  if 1 ≤ y then 0.9 else y

/-- Embedding of `estimar_ciclo_webster`, `coordinacion.py` lines 143-167:
`C0 = (1.5*L + 5) / (1 - y)` clamped to `[40, 140]`. -/
def estimar_ciclo_webster (flujos : List ℚ) (lost_time_s : ℚ) : ℚ :=
  let y := websterY flujos
  let C0 := (1.5 * lost_time_s + 5.0) / (1 - y)
  max 40.0 (min C0 140.0)

/-- Embedding of `calcular_banda_objetivo`, `coordinacion.py` lines
170-177: the fraction is clamped to `[0.3, 0.7]` and multiplied by the
cycle. -/
def calcular_banda_objetivo (ciclo_s porcentaje : ℚ) : ℚ :=
  let p := max 0.3 (min porcentaje 0.7)
  ciclo_s * p

/-- Vehicle-count proxy input `veh = min(50, int(t_seg / 2))` derived by
`EditorMapaSemaforos.simular_ajuste_difuso`, `main.py` line 618. -/
def veh_est (t : ℚ) : ℤ := min 50 (pyInt (t / 2))

/-- Stop-duration proxy input `det = min(60, max(5, int(70 - t_seg)))`
derived by `EditorMapaSemaforos.simular_ajuste_difuso`, `main.py` line 619. -/
def det_est (t : ℚ) : ℤ := min 60 (max 5 (pyInt (70 - t)))

/-- Degrees to radians, `math.radians`: multiplication by pi over 180. -/
noncomputable def radians (x : ℝ) : ℝ := x * (Real.pi / 180)

/-- Two-argument arctangent `math.atan2 y x`, realised as the argument
of the complex number with real part `x` and imaginary part `y` (the
principal value in `(-pi, pi]`, 0 at the origin, exactly as in C). -/
noncomputable def atan2 (y x : ℝ) : ℝ := Complex.arg ⟨x, y⟩

/-- Haversine angular term `a`, `coordinacion.py` line 19:
`sin(dphi/2)**2 + cos(phi1)*cos(phi2)*sin(dlambda/2)**2`. -/
noncomputable def havA (lat1 lon1 lat2 lon2 : ℝ) : ℝ :=
  Real.sin (radians (lat2 - lat1) / 2) ^ 2 +
    Real.cos (radians lat1) * Real.cos (radians lat2) *
      Real.sin (radians (lon2 - lon1) / 2) ^ 2

/-- Embedding of `haversine`, `coordinacion.py` lines 10-21:
`R * 2 * atan2(sqrt(a), sqrt(1 - a))` with Earth radius `R = 6371e3`
(`math.sqrt` on a negative argument would raise in Python; `Real.sqrt`
returns 0 there, which only matters for latitudes beyond 90 degrees). -/
noncomputable def haversine (lat1 lon1 lat2 lon2 : ℝ) : ℝ :=
  6371000 * (2 * atan2 (Real.sqrt (havA lat1 lon1 lat2 lon2))
    (Real.sqrt (1 - havA lat1 lon1 lat2 lon2)))

/-- Dataclass `Semaforo`, `coordinacion.py` lines 28-35. -/
structure Semaforo where
  id_local : ℤ
  lat : ℝ
  lon : ℝ

/-- Dataclass `TramoVelocidad`, `coordinacion.py` lines 38-48. -/
structure TramoVelocidad where
  i_inicio : ℤ
  i_fin : ℤ
  vd_kmh : ℚ

/-- Dataclass `TramoCoordinacion`, `coordinacion.py` lines 51-62. -/
structure TramoCoordinacion where
  via_id : String
  i : ℤ
  j : ℤ
  dist_m : ℝ
  vd_kmh : ℚ
  offset_s : ℝ
  tiempo_viaje_s : ℝ

/-- Dataclass `PlanCoordinacion`, `coordinacion.py` lines 65-76. -/
structure PlanCoordinacion where
  via_id : String
  tramos : List TramoCoordinacion
  ciclo_base_s : ℚ
  banda_objetivo_s : ℚ

/-- Embedding of `asignar_vd_a_tramo`, `coordinacion.py` lines 83-94:
scan the zone table in order and return the design speed of the first
zone whose half-open index range contains `idx`; fall back to the
default speed. -/
def asignar_vd_a_tramo (idx : ℤ) (tramos_vd : List TramoVelocidad)
    (vd_default_kmh : ℚ) : ℚ :=
  match tramos_vd with
  | [] => vd_default_kmh
  | tv :: rest =>
    if tv.i_inicio ≤ idx ∧ idx < tv.i_fin then tv.vd_kmh
    else asignar_vd_a_tramo idx rest vd_default_kmh

/-- Speed conversion and floor from `construir_tramos_coordinacion`,
`coordinacion.py` lines 121-123: `vd_ms = vd_kmh * 1000 / 3600`, and
any result `<= 0` is replaced by `0.1` to avoid division by zero. -/
def vd_ms_of (vd_kmh : ℚ) : ℚ :=
  let v := vd_kmh * 1000.0 / 3600.0
  if v ≤ 0 then 0.1 else v

/-- Loop body of `construir_tramos_coordinacion`, `coordinacion.py`
lines 114-138: the segment built for the consecutive pair
`(semaforos[idx], semaforos[idx+1])`. -/
noncomputable def mkTramo (via_id : String) (tramos_vd : List TramoVelocidad)
    (vd_default_kmh : ℚ) (idx : ℤ) (s_i s_j : Semaforo) : TramoCoordinacion :=
  let dist_m := haversine s_i.lat s_i.lon s_j.lat s_j.lon
  let vd_kmh := asignar_vd_a_tramo idx tramos_vd vd_default_kmh
  let offset_s := dist_m / (vd_ms_of vd_kmh : ℝ)
  { via_id := via_id, i := s_i.id_local, j := s_j.id_local,
    dist_m := dist_m, vd_kmh := vd_kmh,
    offset_s := offset_s, tiempo_viaje_s := offset_s }

/-- Iteration of `for idx in range(len(semaforos) - 1)` over consecutive
pairs, carrying the running index. -/
noncomputable def construirAux (via_id : String) (tramos_vd : List TramoVelocidad)
    (vd_default_kmh : ℚ) (idx : ℤ) : List Semaforo → List TramoCoordinacion
  | s_i :: s_j :: rest =>
    mkTramo via_id tramos_vd vd_default_kmh idx s_i s_j ::
      construirAux via_id tramos_vd vd_default_kmh (idx + 1) (s_j :: rest)
  | _ => []

/-- Embedding of `construir_tramos_coordinacion`, `coordinacion.py`
lines 97-140: fewer than two signals give an empty list, otherwise one
segment per consecutive pair. -/
noncomputable def construir_tramos_coordinacion (via_id : String)
    (semaforos : List Semaforo) (tramos_vd : List TramoVelocidad)
    (vd_default_kmh : ℚ) : List TramoCoordinacion :=
  if semaforos.length < 2 then []
  else construirAux via_id tramos_vd vd_default_kmh 0 semaforos

/-- Python truthiness of `flujos_criticos or []`, `coordinacion.py` line
204: `None` and the empty list both collapse to the empty list. -/
def orNil (flujos : Option (List ℚ)) : List ℚ :=
  match flujos with
  | none => []
  | some l => if l = [] then [] else l

/-- Embedding of `generar_plan_para_via`, `coordinacion.py` lines
180-218: build the segments, estimate the base cycle from
`flujos_criticos or []`, and derive the target bandwidth. -/
noncomputable def generar_plan_para_via (via_id : String)
    (semaforos : List Semaforo) (tramos_vd : List TramoVelocidad)
    (vd_default_kmh : ℚ) (flujos_criticos : Option (List ℚ))
    (lost_time_s : ℚ) (banda_porcentaje : ℚ) : PlanCoordinacion :=
  let tramos := construir_tramos_coordinacion via_id semaforos tramos_vd vd_default_kmh
  let ciclo_base_s := estimar_ciclo_webster (orNil flujos_criticos) lost_time_s
  let banda_objetivo_s := calcular_banda_objetivo ciclo_base_s banda_porcentaje
  { via_id := via_id, tramos := tramos,
    ciclo_base_s := ciclo_base_s, banda_objetivo_s := banda_objetivo_s }

/-- Spec-side description of the zone resolver (section 4.2): return the
`designSpeedKmh` of the first zone, in supplied order, whose half-open
range `[startIndex, endIndex)` contains the segment index, and the
default when none matches.  Stated with `List.find?` to be compared
against the scanning loop `asignar_vd_a_tramo`. -/
def resolveFirstMatchSpec (idx : ℤ) (zones : List TramoVelocidad)
    (defaultKmh : ℚ) : ℚ :=
  match zones.find? (fun tv => decide (tv.i_inicio ≤ idx ∧ idx < tv.i_fin)) with
  | some tv => tv.vd_kmh
  | none => defaultKmh

/-- Embedding of `generar_plan_global`, `coordinacion.py` lines 225-313:
the dict inputs are already-converted typed lists here (the source's
dict-to-dataclass conversion is a field-for-field repackaging), and the
returned dict keyed by V1/V2 is the pair of per-corridor plans. -/
noncomputable def generar_plan_global (via1_semaforos via2_semaforos : List Semaforo)
    (via1_tramos_vd via2_tramos_vd : List TramoVelocidad)
    (vd_default_via1_kmh vd_default_via2_kmh : ℚ)
    (flujos_criticos_via1 flujos_criticos_via2 : Option (List ℚ))
    (lost_time_s banda_porcentaje : ℚ) : PlanCoordinacion × PlanCoordinacion :=
  (generar_plan_para_via "V1" via1_semaforos via1_tramos_vd vd_default_via1_kmh
      flujos_criticos_via1 lost_time_s banda_porcentaje,
    generar_plan_para_via "V2" via2_semaforos via2_tramos_vd vd_default_via2_kmh
      flujos_criticos_via2 lost_time_s banda_porcentaje)

/-! ## Helper lemmas -/

theorem trimf_nonneg (a b c x : ℚ) : 0 ≤ trimf a b c x := by
  unfold trimf
  split_ifs with h1 h2 h3
  · norm_num
  · exact le_of_lt (div_pos (by linarith [h2.1]) (by linarith [h2.1, h2.2]))
  · exact le_of_lt (div_pos (by linarith [h3.2]) (by linarith [h3.1, h3.2]))
  · exact le_refl 0

theorem rule1_strength_nonneg (v s : ℚ) : 0 ≤ rule1_strength v s :=
  le_min (trimf_nonneg _ _ _ _) (trimf_nonneg _ _ _ _)

theorem rule2_strength_nonneg (v s : ℚ) : 0 ≤ rule2_strength v s :=
  le_trans (trimf_nonneg _ _ _ _) (le_max_left _ _)

theorem rule3_strength_nonneg (v s : ℚ) : 0 ≤ rule3_strength v s :=
  le_trans (trimf_nonneg _ _ _ _) (le_max_left _ _)

theorem aggregated_nonneg (v s z : ℚ) : 0 ≤ aggregated v s z :=
  le_trans (le_min (rule1_strength_nonneg v s) (trimf_nonneg _ _ _ _)) (le_max_left _ _)

theorem websterY_lt_one (flujos : List ℚ) : websterY flujos < 1 := by
  simp only [websterY]
  split_ifs with h
  · norm_num
  · exact lt_of_not_le h

/-! ## Claim theorems: cycle, bandwidth, resolver, plan interface -/

/-- C2: for every list of critical-flow ratios (including empty,
negative or greater-than-one entries) and every lost-time value, the
Webster estimate satisfies `40 ≤ C ≤ 140`; moreover the saturation `y`
stays below 1, so the division `(1.5*L + 5)/(1 - y)` never divides by
zero and the function never raises. -/
theorem C2_webster_cycle_bounds (flujos : List ℚ) (L : ℚ) :
    websterY flujos < 1 ∧
      40 ≤ estimar_ciclo_webster flujos L ∧ estimar_ciclo_webster flujos L ≤ 140 := by
  refine ⟨websterY_lt_one flujos, ?_, ?_⟩
  · simp only [estimar_ciclo_webster]
    exact le_trans (by norm_num) (le_max_left (40.0 : ℚ) _)
  · simp only [estimar_ciclo_webster]
    exact le_trans (max_le (by norm_num) (min_le_right _ (140.0 : ℚ))) (by norm_num)

/-- C7 counterexample: the claim quantifies over all cycle values, but
for the negative cycle `C = -10` with fraction `1/2` the code returns
`-5`, which is strictly below `0.3 * C = -3`, so the claimed lower
bound `0.3*C ≤ targetBandwidth(C, f)` fails. -/
theorem C7_counterexample_negative_cycle :
    calcular_banda_objetivo (-10) (1 / 2) < 0.3 * (-10) := by
  norm_num [calcular_banda_objetivo]

/-- C7 (amended): for every nonnegative cycle value `C` and any
requested fraction `f`, `calcular_banda_objetivo C f` lies between
`0.3*C` and `0.7*C`, because the fraction is clamped to `[0.3, 0.7]`
before being multiplied by the cycle; for negative `C` the product
flips the inequalities. -/
theorem C7_bandwidth_fraction_bounds (C f : ℚ) (hC : 0 ≤ C) :
    0.3 * C ≤ calcular_banda_objetivo C f ∧ calcular_banda_objetivo C f ≤ 0.7 * C := by
  simp only [calcular_banda_objetivo]
  have hp1 : (0.3 : ℚ) ≤ max 0.3 (min f 0.7) := le_max_left _ _
  have hp2 : max 0.3 (min f 0.7) ≤ (0.7 : ℚ) := max_le (by norm_num) (min_le_right _ _)
  constructor <;> nlinarith

theorem C7_bandwidth_fraction_bounds_witness :
    0.3 * 100 ≤ calcular_banda_objetivo 100 0.45 ∧
      calcular_banda_objetivo 100 0.45 ≤ 0.7 * 100 :=
  C7_bandwidth_fraction_bounds 100 0.45 (by norm_num)

/-- C5: for every segment index, every zone list (including empty and
overlapping lists) and every default speed, the scanning loop
`asignar_vd_a_tramo` returns exactly the design speed of the first zone
in list order whose half-open range contains the index, and the default
when none matches (`resolveFirstMatchSpec`, stated with `List.find?`);
being a total function it raises no error. -/
theorem C5_first_match_zone_resolution (idx : ℤ) (zones : List TramoVelocidad)
    (defaultKmh : ℚ) :
    asignar_vd_a_tramo idx zones defaultKmh = resolveFirstMatchSpec idx zones defaultKmh := by
  induction zones with
  | nil => rfl
  | cons tv rest ih =>
    by_cases h : tv.i_inicio ≤ idx ∧ idx < tv.i_fin
    · simp [asignar_vd_a_tramo, resolveFirstMatchSpec, List.find?, h]
    · simp only [asignar_vd_a_tramo, resolveFirstMatchSpec, List.find?,
        decide_eq_true_eq] at ih ⊢
      rw [if_neg h]
      simpa [h] using ih

/-- C10: passing `flujos_criticos = None` (the default) through
`generar_plan_para_via` and `generar_plan_global` yields exactly the
same plan as passing an empty list: `flujos_criticos or []` collapses
both to `[]`, the fallback saturation `y = 0.6` is used, and the total
functions raise no error. -/
theorem C10_none_flows_equals_empty (via : String) (s : List Semaforo)
    (tvd : List TramoVelocidad) (d L pct : ℚ) (v1 v2 : List Semaforo)
    (t1 t2 : List TramoVelocidad) (d1 d2 : ℚ) :
    generar_plan_para_via via s tvd d none L pct =
        generar_plan_para_via via s tvd d (some []) L pct ∧
      (generar_plan_para_via via s tvd d none L pct).ciclo_base_s =
        estimar_ciclo_webster [] L ∧
      websterY [] = 0.6 ∧
      generar_plan_global v1 v2 t1 t2 d1 d2 none none L pct =
        generar_plan_global v1 v2 t1 t2 d1 d2 (some []) (some []) L pct := by
    refine ⟨?_, rfl, by norm_num [websterY, websterYRaw], ?_⟩ <;>
      simp [generar_plan_para_via, generar_plan_global, orNil]

theorem pyInt_intCast (n : ℤ) : pyInt (n : ℚ) = n := by
  unfold pyInt
  split_ifs with h
  · exact Int.floor_intCast n
  · rw [← Int.cast_neg, Int.floor_intCast]; ring

/-- C8: for every baseline segment time `t` (the values read back from
the timing table, which are integral by construction since the table is
populated with `int(...)` values), the derived fuzzy inputs are
`veh = min(50, floor(t/2))` and `det = clamp(5, 60, 70 - t)`. -/
theorem C8_proxy_input_derivation (t : ℤ) (ht : 0 ≤ t) :
    veh_est (t : ℚ) = min 50 ⌊(t : ℚ) / 2⌋ ∧
      (det_est (t : ℚ) : ℚ) = min 60 (max 5 (70 - (t : ℚ))) := by
  constructor
  · unfold veh_est pyInt
    rw [if_pos (by positivity)]
  · unfold det_est
    rw [show (70 : ℚ) - (t : ℚ) = ((70 - t : ℤ) : ℚ) by push_cast; ring, pyInt_intCast]
    push_cast
    rfl

theorem C8_proxy_input_derivation_witness :
    veh_est ((57 : ℤ) : ℚ) = min 50 ⌊((57 : ℤ) : ℚ) / 2⌋ ∧
      (det_est ((57 : ℤ) : ℚ) : ℚ) = min 60 (max 5 (70 - ((57 : ℤ) : ℚ))) :=
  C8_proxy_input_derivation 57 (by norm_num)

/-! ## Claim theorems: fuzzy engine -/

/-- C1 (code evaluated at the failing input): with vehicle count 60 and
stop duration 70, both outside the declared domains, every membership
degree is zero, no rule fires, the aggregated output set is empty and
the centroid denominator is zero; the engine neither returns the domain
midpoint 50 nor flags a condition — the undefined centroid surfaces as
the library error (modelled as `none`) which `calcular_tiempo`
propagates unhandled to its caller. -/
theorem C1_empty_aggregate_propagates :
    fuzzyCompute 60 70 = none ∧ calcular_tiempo 60 70 = none := by
  have h1 : rule1_strength 60 70 = 0 := by
    norm_num [rule1_strength, vehiculos_bajo, detencion_corto, trimf]
  have h2 : rule2_strength 60 70 = 0 := by
    norm_num [rule2_strength, vehiculos_medio, detencion_medio, trimf]
  have h3 : rule3_strength 60 70 = 0 := by
    norm_num [rule3_strength, vehiculos_alto, detencion_largo, trimf]
  have hagg : ∀ z : ℚ, aggregated 60 70 z = 0 := by
    intro z
    simp only [aggregated, h1, h2, h3]
    have hc : (0 : ℚ) ≤ tiempo_corto z := trimf_nonneg _ _ _ _
    have hm : (0 : ℚ) ≤ tiempo_medio z := trimf_nonneg _ _ _ _
    have hl : (0 : ℚ) ≤ tiempo_largo z := trimf_nonneg _ _ _ _
    simp [min_eq_left hc, min_eq_left hm, min_eq_left hl]
  have htot : (tiempoUniverse.map (aggregated 60 70)).sum = 0 := by
    apply List.sum_eq_zero
    intro x hx
    rcases List.mem_map.mp hx with ⟨z, _, rfl⟩
    exact hagg z
  constructor
  · simp [fuzzyCompute, htot]
  · simp [calcular_tiempo, fuzzyCompute, htot]

theorem vehiculos_medio_eq_zero {v : ℚ} (h : vehiculos_medio v = 0) : v ≤ 10 ∨ 40 ≤ v := by
  by_contra hc
  push_neg at hc
  unfold vehiculos_medio trimf at h
  split_ifs at h with h1 h2 h3
  · exact one_ne_zero h
  · rw [div_eq_zero_iff] at h
    rcases h with h | h <;> [linarith [h2.1]; norm_num at h]
  · rw [div_eq_zero_iff] at h
    rcases h with h | h <;> [linarith [h3.2]; norm_num at h]
  · rcases lt_trichotomy v 25 with hv | hv | hv
    · exact h2 ⟨hc.1, hv⟩
    · exact h1 hv
    · exact h3 ⟨hv, hc.2⟩

theorem vehiculos_alto_eq_zero {v : ℚ} (h : vehiculos_alto v = 0) (hv : v ≤ 50) : v ≤ 35 := by
  by_contra hc
  push_neg at hc
  unfold vehiculos_alto trimf at h
  split_ifs at h with h1 h2 h3
  · exact one_ne_zero h
  · rw [div_eq_zero_iff] at h
    rcases h with h | h <;> [linarith [h2.1]; norm_num at h]
  · linarith [h3.1, h3.2]
  · rcases lt_or_eq_of_le hv with hv' | hv'
    · exact h2 ⟨hc, hv'⟩
    · exact h1 hv'

theorem detencion_medio_eq_zero {s : ℚ} (h : detencion_medio s = 0) : s ≤ 15 ∨ 45 ≤ s := by
  by_contra hc
  push_neg at hc
  unfold detencion_medio trimf at h
  split_ifs at h with h1 h2 h3
  · exact one_ne_zero h
  · rw [div_eq_zero_iff] at h
    rcases h with h | h <;> [linarith [h2.1]; norm_num at h]
  · rw [div_eq_zero_iff] at h
    rcases h with h | h <;> [linarith [h3.2]; norm_num at h]
  · rcases lt_trichotomy s 30 with hs | hs | hs
    · exact h2 ⟨hc.1, hs⟩
    · exact h1 hs
    · exact h3 ⟨hs, hc.2⟩

theorem detencion_largo_eq_zero {s : ℚ} (h : detencion_largo s = 0) (hs : s ≤ 60) : s ≤ 40 := by
  by_contra hc
  push_neg at hc
  unfold detencion_largo trimf at h
  split_ifs at h with h1 h2 h3
  · exact one_ne_zero h
  · rw [div_eq_zero_iff] at h
    rcases h with h | h <;> [linarith [h2.1]; norm_num at h]
  · linarith [h3.1, h3.2]
  · rcases lt_or_eq_of_le hs with hs' | hs'
    · exact h2 ⟨hc, hs'⟩
    · exact h1 hs'

theorem vehiculos_bajo_pos {v : ℚ} (h0 : 0 ≤ v) (h10 : v ≤ 10) : 0 < vehiculos_bajo v := by
  unfold vehiculos_bajo trimf
  split_ifs with h1 h2 h3
  · norm_num
  · linarith [h2.1, h2.2]
  · exact div_pos (by linarith [h3.2]) (by norm_num)
  · exfalso
    rcases lt_or_eq_of_le h0 with h0' | h0'
    · exact h3 ⟨h0', by linarith⟩
    · exact h1 h0'.symm

theorem detencion_corto_pos {s : ℚ} (h0 : 0 ≤ s) (h15 : s ≤ 15) : 0 < detencion_corto s := by
  unfold detencion_corto trimf
  split_ifs with h1 h2 h3
  · norm_num
  · linarith [h2.1, h2.2]
  · exact div_pos (by linarith [h3.2]) (by norm_num)
  · exfalso
    rcases lt_or_eq_of_le h0 with h0' | h0'
    · exact h3 ⟨h0', by linarith⟩
    · exact h1 h0'.symm

theorem exists_rule_fired {v s : ℚ} (hv0 : 0 ≤ v) (hv : v ≤ 50) (hs0 : 0 ≤ s) (hs : s ≤ 60) :
    0 < rule1_strength v s ∨ 0 < rule2_strength v s ∨ 0 < rule3_strength v s := by
  by_cases h2 : 0 < rule2_strength v s
  · exact Or.inr (Or.inl h2)
  by_cases h3 : 0 < rule3_strength v s
  · exact Or.inr (Or.inr h3)
  left
  push_neg at h2 h3
  have h2' : rule2_strength v s = 0 := le_antisymm h2 (rule2_strength_nonneg v s)
  have h3' : rule3_strength v s = 0 := le_antisymm h3 (rule3_strength_nonneg v s)
  have hmv : vehiculos_medio v = 0 :=
    le_antisymm (h2'.symm ▸ le_max_left _ _ : vehiculos_medio v ≤ 0) (trimf_nonneg _ _ _ _)
  have hms : detencion_medio s = 0 :=
    le_antisymm (h2'.symm ▸ le_max_right _ _ : detencion_medio s ≤ 0) (trimf_nonneg _ _ _ _)
  have hav : vehiculos_alto v = 0 :=
    le_antisymm (h3'.symm ▸ le_max_left _ _ : vehiculos_alto v ≤ 0) (trimf_nonneg _ _ _ _)
  have hls : detencion_largo s = 0 :=
    le_antisymm (h3'.symm ▸ le_max_right _ _ : detencion_largo s ≤ 0) (trimf_nonneg _ _ _ _)
  have hv10 : v ≤ 10 := by
    rcases vehiculos_medio_eq_zero hmv with h | h
    · exact h
    · linarith [vehiculos_alto_eq_zero hav hv]
  have hs15 : s ≤ 15 := by
    rcases detencion_medio_eq_zero hms with h | h
    · exact h
    · linarith [detencion_largo_eq_zero hls hs]
  exact lt_min (vehiculos_bajo_pos hv0 hv10) (detencion_corto_pos hs0 hs15)

theorem mem_tiempoUniverse_10 : (10 : ℚ) ∈ tiempoUniverse :=
  List.mem_map.mpr ⟨0, List.mem_range.mpr (by norm_num : (0 : ℕ) < 81), by norm_num⟩

theorem mem_tiempoUniverse_45 : (45 : ℚ) ∈ tiempoUniverse :=
  List.mem_map.mpr ⟨35, List.mem_range.mpr (by norm_num : (35 : ℕ) < 81), by norm_num⟩

theorem mem_tiempoUniverse_90 : (90 : ℚ) ∈ tiempoUniverse :=
  List.mem_map.mpr ⟨80, List.mem_range.mpr (by norm_num : (80 : ℕ) < 81), by norm_num⟩

theorem aggregated_le_sum {v s z : ℚ} (hz : z ∈ tiempoUniverse) :
    aggregated v s z ≤ (tiempoUniverse.map (aggregated v s)).sum := by
  apply List.single_le_sum
  · intro x hx
    rcases List.mem_map.mp hx with ⟨w, _, rfl⟩
    exact aggregated_nonneg v s w
  · exact List.mem_map.mpr ⟨z, hz, rfl⟩

theorem total_membership_pos {v s : ℚ}
    (hv0 : 0 ≤ v) (hv : v ≤ 50) (hs0 : 0 ≤ s) (hs : s ≤ 60) :
    0 < (tiempoUniverse.map (aggregated v s)).sum := by
  rcases exists_rule_fired hv0 hv hs0 hs with h1 | h2 | h3
  · refine lt_of_lt_of_le ?_ (aggregated_le_sum mem_tiempoUniverse_10)
    have hapex : tiempo_corto 10 = 1 := by norm_num [tiempo_corto, trimf]
    have h0 : (0 : ℚ) < min (rule1_strength v s) (tiempo_corto 10) := by
      rw [hapex]; exact lt_min h1 one_pos
    simp only [aggregated]
    exact lt_of_lt_of_le h0 (le_max_left _ _)
  · refine lt_of_lt_of_le ?_ (aggregated_le_sum mem_tiempoUniverse_45)
    have hapex : tiempo_medio 45 = 1 := by norm_num [tiempo_medio, trimf]
    have h0 : (0 : ℚ) < min (rule2_strength v s) (tiempo_medio 45) := by
      rw [hapex]; exact lt_min h2 one_pos
    simp only [aggregated]
    exact lt_of_lt_of_le h0 (le_trans (le_max_left _ _) (le_max_right _ _))
  · refine lt_of_lt_of_le ?_ (aggregated_le_sum mem_tiempoUniverse_90)
    have hapex : tiempo_largo 90 = 1 := by norm_num [tiempo_largo, trimf]
    have h0 : (0 : ℚ) < min (rule3_strength v s) (tiempo_largo 90) := by
      rw [hapex]; exact lt_min h3 one_pos
    simp only [aggregated]
    exact lt_of_lt_of_le h0 (le_trans (le_max_right _ _) (le_max_right _ _))

/-- C3: for every pair of fuzzy inputs inside the declared domains
(vehicles in `[0, 50]`, stop duration in `[0, 60]`) at least one rule
fires with positive strength, the defuzzification succeeds, and
`calcular_tiempo` returns an integer `r` with `10 ≤ r ≤ 90` (the final
`max(10, min(90, int(...)))` clamp of `main.py` line 49 enforces the
bounds). -/
theorem C3_fuzzy_output_in_range (v s : ℚ)
    (hv0 : 0 ≤ v) (hv : v ≤ 50) (hs0 : 0 ≤ s) (hs : s ≤ 60) :
    ∃ r : ℤ, calcular_tiempo v s = some r ∧ 10 ≤ r ∧ r ≤ 90 := by
  have hne : (tiempoUniverse.map (aggregated v s)).sum ≠ 0 :=
    ne_of_gt (total_membership_pos hv0 hv hs0 hs)
  simp only [calcular_tiempo, fuzzyCompute, if_neg hne, Option.map_some]
  exact ⟨_, rfl, le_max_left _ _, max_le (by norm_num) (min_le_left _ _)⟩

theorem C3_fuzzy_output_in_range_witness :
    ∃ r : ℤ, calcular_tiempo 2 5 = some r ∧ 10 ≤ r ∧ r ≤ 90 :=
  C3_fuzzy_output_in_range 2 5 (by norm_num) (by norm_num) (by norm_num) (by norm_num)

/-! ## Helper lemmas: geometry -/

theorem atan2_zero_of_nonneg {x : ℝ} (hx : 0 ≤ x) : atan2 0 x = 0 := by
  unfold atan2
  exact Complex.arg_eq_zero_iff.mpr ⟨hx, rfl⟩

theorem atan2_nonneg {y x : ℝ} (hy : 0 ≤ y) : 0 ≤ atan2 y x := by
  unfold atan2
  exact Complex.arg_nonneg_iff.mpr hy

theorem atan2_pos {y x : ℝ} (hy : 0 < y) : 0 < atan2 y x := by
  refine lt_of_le_of_ne (atan2_nonneg hy.le) ?_
  intro he
  have h0 := (Complex.arg_eq_zero_iff.mp he.symm).2
  exact hy.ne' h0

theorem havA_comm (lat1 lon1 lat2 lon2 : ℝ) :
    havA lat2 lon2 lat1 lon1 = havA lat1 lon1 lat2 lon2 := by
  unfold havA radians
  rw [show (lat1 - lat2) * (Real.pi / 180) / 2 =
        -((lat2 - lat1) * (Real.pi / 180) / 2) by ring,
    show (lon1 - lon2) * (Real.pi / 180) / 2 =
        -((lon2 - lon1) * (Real.pi / 180) / 2) by ring,
    Real.sin_neg, Real.sin_neg]
  ring

theorem havA_self (lat lon : ℝ) : havA lat lon lat lon = 0 := by
  unfold havA radians
  rw [sub_self, sub_self, zero_mul, zero_div, Real.sin_zero]
  ring

theorem haversine_nonneg (lat1 lon1 lat2 lon2 : ℝ) :
    0 ≤ haversine lat1 lon1 lat2 lon2 := by
  unfold haversine
  have h := atan2_nonneg (x := Real.sqrt (1 - havA lat1 lon1 lat2 lon2))
    (Real.sqrt_nonneg (havA lat1 lon1 lat2 lon2))
  positivity

theorem haversine_pos {lat1 lon1 lat2 lon2 : ℝ} (h : 0 < havA lat1 lon1 lat2 lon2) :
    0 < haversine lat1 lon1 lat2 lon2 := by
  unfold haversine
  have hp := atan2_pos (x := Real.sqrt (1 - havA lat1 lon1 lat2 lon2))
    (Real.sqrt_pos.mpr h)
  positivity

theorem haversine_eq_zero_of_nonpos {lat1 lon1 lat2 lon2 : ℝ}
    (h : havA lat1 lon1 lat2 lon2 ≤ 0) : haversine lat1 lon1 lat2 lon2 = 0 := by
  unfold haversine
  rw [Real.sqrt_eq_zero_of_nonpos h, atan2_zero_of_nonneg (Real.sqrt_nonneg _)]
  ring

theorem haversine_self_zero (lat1 lon1 lat2 lon2 : ℝ)
    (hlat : lat1 = lat2) (hlon : lon1 = lon2) : haversine lat1 lon1 lat2 lon2 = 0 := by
  subst hlat hlon
  exact haversine_eq_zero_of_nonpos (le_of_eq (havA_self lat1 lon1))

/-- C9: the great-circle distance is symmetric in its two coordinate
pairs (every term of the haversine formula is even in the coordinate
swap) and returns 0 for coincident points. -/
theorem C9_haversine_symm_self (lat1 lon1 lat2 lon2 : ℝ) :
    haversine lat1 lon1 lat2 lon2 = haversine lat2 lon2 lat1 lon1 ∧
      haversine lat1 lon1 lat1 lon1 = 0 := by
  constructor
  · unfold haversine
    rw [havA_comm]
  · exact haversine_self_zero lat1 lon1 lat1 lon1 rfl rfl

theorem radians_half_lt_pi {d : ℝ} (hd : |d| < 360) :
    -Real.pi < radians d / 2 ∧ radians d / 2 < Real.pi := by
  have hpi := Real.pi_pos
  rw [abs_lt] at hd
  unfold radians
  constructor <;> nlinarith [hd.1, hd.2]

theorem sin_radians_half_ne_zero {d : ℝ} (hd : |d| < 360) (hne : d ≠ 0) :
    Real.sin (radians d / 2) ≠ 0 := by
  have hb := radians_half_lt_pi hd
  intro habs
  have h0 := (Real.sin_eq_zero_iff_of_lt_of_lt hb.1 hb.2).mp habs
  have hpi := Real.pi_pos
  unfold radians at h0
  have hdp : d * Real.pi = 0 := by linarith
  rcases mul_eq_zero.mp hdp with h | h
  · exact hne h
  · exact absurd h (ne_of_gt hpi)

theorem cos_radians_pos {lat : ℝ} (h1 : -90 < lat) (h2 : lat < 90) :
    0 < Real.cos (radians lat) := by
  have hpi := Real.pi_pos
  apply Real.cos_pos_of_mem_Ioo
  constructor <;> [skip; skip] <;> unfold radians <;> nlinarith

theorem havA_pos {lat1 lon1 lat2 lon2 : ℝ}
    (h1a : -90 < lat1) (h1b : lat1 < 90) (h2a : -90 < lat2) (h2b : lat2 < 90)
    (hlon : |lon1 - lon2| < 360) (hne : (lat1, lon1) ≠ (lat2, lon2)) :
    0 < havA lat1 lon1 lat2 lon2 := by
  have hc1 := cos_radians_pos h1a h1b
  have hc2 := cos_radians_pos h2a h2b
  unfold havA
  by_cases hlat : lat1 = lat2
  · have hlon_ne : lon2 - lon1 ≠ 0 := by
      intro he
      exact hne (by rw [hlat, show lon1 = lon2 by linarith [sub_eq_zero.mp he]])
    have habs : |lon2 - lon1| < 360 := by
      rw [abs_sub_comm]; exact hlon
    have hsin := sin_radians_half_ne_zero habs hlon_ne
    have hterm : 0 < Real.cos (radians lat1) * Real.cos (radians lat2) *
        Real.sin (radians (lon2 - lon1) / 2) ^ 2 :=
      mul_pos (mul_pos hc1 hc2) (pow_two_pos_of_ne_zero hsin)
    nlinarith [sq_nonneg (Real.sin (radians (lat2 - lat1) / 2))]
  · have hlat_ne : lat2 - lat1 ≠ 0 := fun he => hlat (by linarith [sub_eq_zero.mp he])
    have habs : |lat2 - lat1| < 360 := by
      rw [abs_lt]; constructor <;> linarith
    have hsin := sin_radians_half_ne_zero habs hlat_ne
    have hterm : 0 < Real.sin (radians (lat2 - lat1) / 2) ^ 2 :=
      pow_two_pos_of_ne_zero hsin
    nlinarith [sq_nonneg (Real.sin (radians (lon2 - lon1) / 2)),
      mul_pos hc1 hc2, sq_nonneg (Real.sin (radians (lon2 - lon1) / 2))]

/-! ## Helper lemmas: segment construction -/

theorem construirAux_length (via : String) (tvd : List TramoVelocidad) (d : ℚ) :
    ∀ (s : List Semaforo) (idx : ℤ),
      (construirAux via tvd d idx s).length = s.length - 1 := by
  intro s
  induction s with
  | nil => intro idx; simp [construirAux]
  | cons a tl ih =>
    cases tl with
    | nil => intro idx; simp [construirAux]
    | cons b rest =>
      intro idx
      simp only [construirAux, List.length_cons]
      rw [ih (idx + 1)]
      simp only [List.length_cons]
      omega

theorem construir_length (via : String) (s : List Semaforo)
    (tvd : List TramoVelocidad) (d : ℚ) :
    (construir_tramos_coordinacion via s tvd d).length = s.length - 1 := by
  unfold construir_tramos_coordinacion
  split_ifs with h
  · simp only [List.length_nil]
    omega
  · exact construirAux_length via tvd d s 0

theorem construirAux_forall (via : String) (tvd : List TramoVelocidad) (d : ℚ)
    (P : TramoCoordinacion → Prop)
    (hP : ∀ (idx : ℤ) (p q : Semaforo), P (mkTramo via tvd d idx p q)) :
    ∀ (s : List Semaforo) (idx : ℤ), (construirAux via tvd d idx s).Forall P := by
  intro s
  induction s with
  | nil => intro idx; simp [construirAux]
  | cons a tl ih =>
    cases tl with
    | nil => intro idx; simp [construirAux]
    | cons b rest =>
      intro idx
      simp only [construirAux]
      exact (List.forall_cons P _ _).mpr ⟨hP idx a b, ih (idx + 1)⟩

theorem construir_forall (via : String) (s : List Semaforo)
    (tvd : List TramoVelocidad) (d : ℚ) (P : TramoCoordinacion → Prop)
    (hP : ∀ (idx : ℤ) (p q : Semaforo), P (mkTramo via tvd d idx p q)) :
    (construir_tramos_coordinacion via s tvd d).Forall P := by
  unfold construir_tramos_coordinacion
  split_ifs with h
  · simp [List.Forall]
  · exact construirAux_forall via tvd d P hP s 0

/-- C4 (amended): `construir_tramos_coordinacion` returns exactly
`max(N-1, 0)` segments, every segment distance is nonnegative, and a
segment's distance is zero whenever its endpoint coordinates coincide;
distances are strictly positive for distinct endpoints provided
latitudes lie strictly inside `(-90, 90)` and the longitude difference
is under 360 degrees — outside that range distinct coordinate pairs can
be angularly coincident (haversine term `a = 0`) and yield distance 0.
With fewer than 2 signal points `generar_plan_para_via` still returns a
plan with an empty segment list whose base cycle and target bandwidth
are computed as usual. -/
theorem C4_segment_count_and_distances :
    (∀ (via : String) (s : List Semaforo) (tvd : List TramoVelocidad) (d : ℚ),
        ((construir_tramos_coordinacion via s tvd d).length : ℤ) =
          max ((s.length : ℤ) - 1) 0 ∧
        (construir_tramos_coordinacion via s tvd d).Forall (fun t => 0 ≤ t.dist_m)) ∧
    (∀ (via : String) (tvd : List TramoVelocidad) (d : ℚ) (idx : ℤ) (p q : Semaforo),
        (p.lat = q.lat → p.lon = q.lon → (mkTramo via tvd d idx p q).dist_m = 0) ∧
        (-90 < p.lat → p.lat < 90 → -90 < q.lat → q.lat < 90 →
          |p.lon - q.lon| < 360 → (p.lat, p.lon) ≠ (q.lat, q.lon) →
          0 < (mkTramo via tvd d idx p q).dist_m)) ∧
    (∀ (via : String) (x : Semaforo) (tvd : List TramoVelocidad) (d : ℚ)
        (fl : Option (List ℚ)) (L pct : ℚ),
        (generar_plan_para_via via [] tvd d fl L pct).tramos = [] ∧
        (generar_plan_para_via via [x] tvd d fl L pct).tramos = [] ∧
        (generar_plan_para_via via [] tvd d fl L pct).ciclo_base_s =
          estimar_ciclo_webster (orNil fl) L ∧
        (generar_plan_para_via via [] tvd d fl L pct).banda_objetivo_s =
          calcular_banda_objetivo (estimar_ciclo_webster (orNil fl) L) pct) := by
  refine ⟨?_, ?_, ?_⟩
  · intro via s tvd d
    constructor
    · have h := construir_length via s tvd d
      omega
    · exact construir_forall via s tvd d _
        (fun idx p q => haversine_nonneg p.lat p.lon q.lat q.lon)
  · intro via tvd d idx p q
    constructor
    · intro h1 h2
      exact haversine_self_zero p.lat p.lon q.lat q.lon h1 h2
    · intro h1a h1b h2a h2b hlon hne
      exact haversine_pos (havA_pos h1a h1b h2a h2b hlon hne)
  · intro via x tvd d fl L pct
    exact ⟨rfl, rfl, rfl, rfl⟩

theorem C4_segment_count_and_distances_witness :
    0 < (mkTramo "V1" [] 40 0 { id_local := 0, lat := 0, lon := 0 }
        { id_local := 1, lat := 0, lon := 1 }).dist_m ∧
    (mkTramo "V1" [] 40 0 { id_local := 0, lat := 0, lon := 0 }
        { id_local := 0, lat := 0, lon := 0 }).dist_m = 0 ∧
    (generar_plan_para_via "V1" [] [] 40 none 12 0.45).tramos = [] := by
  refine ⟨?_, ?_, ?_⟩
  · exact (C4_segment_count_and_distances.2.1 "V1" [] 40 0 _ _).2
      (by norm_num) (by norm_num) (by norm_num) (by norm_num)
      (by rw [show (0 : ℝ) - 1 = -1 by ring, abs_neg, abs_one]; norm_num)
      (by norm_num [Prod.ext_iff])
  · exact (C4_segment_count_and_distances.2.1 "V1" [] 40 0 _ _).1 rfl rfl
  · exact (C4_segment_count_and_distances.2.2 "V1"
      { id_local := 0, lat := 0, lon := 0 } [] 40 none 12 0.45).1

/-- C4 counterexample: a two-signal corridor whose endpoints have
distinct coordinates (longitudes 0 and 360) produces exactly one
segment whose distance is 0, refuting the claim that every segment has
strictly positive distance unless its endpoint coordinates coincide:
the great-circle formula gives 0 for any angularly coincident pair. -/
theorem C4_counterexample_coincident_angle :
    (construir_tramos_coordinacion "V1"
        [{ id_local := 0, lat := 0, lon := 0 }, { id_local := 1, lat := 0, lon := 360 }]
        [] 40).map TramoCoordinacion.dist_m = [0] ∧ (0 : ℝ) ≠ 360 := by
  have hA : havA 0 0 0 360 ≤ 0 := by
    unfold havA radians
    rw [show ((0 : ℝ) - 0) * (Real.pi / 180) / 2 = 0 by ring,
      show ((360 : ℝ) - 0) * (Real.pi / 180) / 2 = Real.pi by ring,
      show (0 : ℝ) * (Real.pi / 180) = 0 by ring,
      Real.sin_zero, Real.cos_zero, Real.sin_pi]
    norm_num
  constructor
  · have hz : haversine 0 0 0 360 = 0 := haversine_eq_zero_of_nonpos hA
    simp only [construir_tramos_coordinacion, List.length_cons, List.length_nil,
      construirAux, mkTramo, List.map_cons, List.map_nil]
    norm_num
    exact hz
  · norm_num

/-- C6: in every segment built by `construir_tramos_coordinacion` the
divisor used for the offset is `vd_ms_of` of the resolved design speed,
which is strictly positive for every input (any converted speed `<= 0`
is replaced by 0.1 m/s), so `offset_s = dist_m / speed` never divides
by zero and no exception is raised for zero or negative design speeds. -/
theorem C6_positive_divisor :
    (∀ k : ℚ, 0 < vd_ms_of k) ∧
      ∀ (via : String) (s : List Semaforo) (tvd : List TramoVelocidad) (d : ℚ),
        (construir_tramos_coordinacion via s tvd d).Forall
          (fun t => t.offset_s = t.dist_m / (vd_ms_of t.vd_kmh : ℝ)) := by
  constructor
  · intro k
    simp only [vd_ms_of]
    split_ifs with h
    · norm_num
    · exact lt_of_not_le h
  · intro via s tvd d
    exact construir_forall via s tvd d _ (fun idx p q => rfl)
